import Mathlib

/-
Shallow embedding of the subscription reconciliation core of this
repository:
  * `SubscriptionService` in src/src/components/BillingPage.tsx
    (createSubscription, updateSubscription, getUserSubscription,
     checkSubscriptionAccess, fallbackAccessCheck, getPlanFeatures,
     getTrialFeatures, getPaymentHistory, getPlanAmount), and
  * the billing-processor notification handler in src/unnamed/part_000
    (the `Deno.serve` switch over event types and
     `handleSubscriptionUpdate`).
Timestamps are modelled as integers (milliseconds since the epoch, the
unit of JavaScript `Date.getTime()`).  The durable store is modelled as
a list of rows; store reads that may fail are modelled as `Except`
inputs at the call sites that catch them in the source.
-/

namespace Billing

/-- Plan tiers, from the `plan_type` union in BillingPage.tsx. -/
inductive PlanTier
  | trial
  | monthly
  | semiannual
  | annual
deriving DecidableEq, Repr

/-- Subscription statuses, from the `status` union in BillingPage.tsx. -/
inductive SubStatus
  | active
  | expired
  | cancelled
  | past_due
deriving DecidableEq, Repr

/-- One row of the `subscriptions` table, following the `Subscription`
interface in BillingPage.tsx.  Timestamps are integers (ms). -/
structure Subscription where
  id : Nat
  user_id : String
  plan_type : PlanTier
  status : SubStatus
  stripe_subscription_id : Option String
  stripe_customer_id : Option String
  current_period_start : Int
  current_period_end : Int
  created_at : Int
  updated_at : Int
deriving DecidableEq, Repr

/-- Feature set, following the `PlanFeatures` interface in
BillingPage.tsx.  The source encodes "unlimited" as `-1`. -/
structure PlanFeatures where
  maxCustomers : Int
  maxBranches : Int
  advancedAnalytics : Bool
  prioritySupport : Bool
  customBranding : Bool
  apiAccess : Bool
deriving DecidableEq, Repr

/-- Result of an entitlement check, following the return type of
`SubscriptionService.checkSubscriptionAccess`. -/
structure AccessResult where
  hasAccess : Bool
  subscription : Option Subscription
  features : PlanFeatures
  daysRemaining : Int
deriving DecidableEq, Repr

/-- Milliseconds per day, the `24 * 60 * 60 * 1000` factor of the source. -/
def msPerDay : Int := 86400000

/-- Billing-period length in days per tier.  This is the `switch` on the
plan type that appears in `createSubscription`, `updateSubscription`
(trial and monthly 30 days, semiannual 180, annual 365) and, identically
but with the 30-day arm reached through `default`, in
`handleSubscriptionUpdate` of the notification handler. -/
def periodDays : PlanTier → Int
  | .trial => 30
  | .monthly => 30
  | .semiannual => 180
  | .annual => 365

/-- `SubscriptionService.getTrialFeatures`. -/
def getTrialFeatures : PlanFeatures :=
  { maxCustomers := 100
    maxBranches := 1
    advancedAnalytics := false
    prioritySupport := false
    customBranding := false
    apiAccess := false }

/-- `SubscriptionService.getPlanFeatures`: the `trial` arm returns the
trial feature set, the `default` arm the paid feature set with `-1`
meaning unlimited and branding/API gated on the tier not being monthly. -/
def getPlanFeatures : PlanTier → PlanFeatures
  | .trial => getTrialFeatures
  | t =>
    { maxCustomers := -1
      maxBranches := -1
      advancedAnalytics := true
      prioritySupport := true
      customBranding := decide (t ≠ .monthly)
      apiAccess := decide (t ≠ .monthly) }

/-- Ceiling of `a / b` for a positive divisor `b`, the exact value of the
source's `Math.ceil((a) / b)` on integer inputs. -/
def ceilDiv (a b : Int) : Int := (a + b - 1).ediv b

/-- `SubscriptionService.fallbackAccessCheck`: on a missing record,
fail-open trial defaults; on a present record, access iff the status is
active and the period end is strictly later than now, days remaining the
clamped ceiling of the distance to the period end in days. -/
def fallbackAccessCheck (sub : Option Subscription) (now : Int) : AccessResult :=
  match sub with
  | none =>
    { hasAccess := true
      subscription := none
      features := getTrialFeatures
      daysRemaining := 30 }
  | some s =>
    { hasAccess := decide (s.status = .active) && decide (now < s.current_period_end)
      subscription := some s
      features := getPlanFeatures s.plan_type
      daysRemaining := max 0 (ceilDiv (s.current_period_end - now) msPerDay) }

/-- `SubscriptionService.checkSubscriptionAccess`: the store read
(`getUserSubscription`) either yields an optional row or throws; a throw
is caught and replaced by the fail-open trial default.  The read outcome
is passed in as an `Except` value. -/
def checkSubscriptionAccess (readResult : Except String (Option Subscription))
    (now : Int) : AccessResult :=
  match readResult with
  | .ok sub => fallbackAccessCheck sub now
  | .error _ =>
    { hasAccess := true
      subscription := none
      features := getTrialFeatures
      daysRemaining := 30 }

/-- Fold step implementing `order by created_at descending, limit 1`:
keep the row with the strictly larger `created_at` (first seen wins on
ties, matching a stable descending sort). -/
def pickLatest : Option Subscription → Subscription → Option Subscription
  | none, r => some r
  | some c, r => if r.created_at > c.created_at then some r else some c

/-- `SubscriptionService.getUserSubscription`: the owner's rows, ordered
by `created_at` descending, first one taken (`maybeSingle`). -/
def getUserSubscription (userId : String) (store : List Subscription) :
    Option Subscription :=
  (store.filter (fun r => decide (r.user_id = userId))).foldl pickLatest none

/-- `SubscriptionService.getPlanAmount`: fixed amount-in-cents table. -/
def getPlanAmount : PlanTier → Int
  | .monthly => 299
  | .semiannual => 999
  | .annual => 1999
  | _ => 0

def paidStr : String := "paid"
def failedStr : String := "failed"

/-- One synthesized payment-history entry, following the object literal
built in `SubscriptionService.getPaymentHistory`.  The source converts
the three timestamps to seconds (`getTime() / 1000`); the model keeps
them in milliseconds, a unit change the claims do not touch. -/
structure PaymentEntry where
  id : Nat
  amount : Int
  payStatus : String
  created : Int
  period_start : Int
  period_end : Int
  plan_type : PlanTier
deriving DecidableEq, Repr

/-- `SubscriptionService.getPaymentHistory`: reads the current record
(`getUserSubscription`, outcome passed as `Except`); an absent record or
a thrown read yields the empty list, otherwise a single entry is
synthesized from the record. -/
def getPaymentHistory (readResult : Except String (Option Subscription)) :
    List PaymentEntry :=
  match readResult with
  | .error _ => []
  | .ok none => []
  | .ok (some s) =>
    [{ id := s.id
       amount := getPlanAmount s.plan_type
       payStatus := if s.status = .active then paidStr else failedStr
       created := s.created_at
       period_start := s.current_period_start
       period_end := s.current_period_end
       plan_type := s.plan_type }]

def errPGRST : String := "PGRST116"
def errStore : String := "StoreUnavailable"
def errRange : String := "RangeError"

/-- Patch applied by `SubscriptionService.updateSubscription` to the row
with the given id: tier, status `active`, both Stripe refs, a fresh
`current_period_end` computed from now, and `updated_at`; the source
does NOT touch `current_period_start`.  An `undefined` optional argument
is dropped from the JSON body by the client, leaving the stored column
unchanged, hence the `Option`-fallback on the two refs. -/
def subUpdateRow (tier : PlanTier) (sSubId sCustId : Option String)
    (now : Int) (r : Subscription) : Subscription :=
  { r with
    plan_type := tier
    status := .active
    stripe_subscription_id := sSubId.orElse fun _ => r.stripe_subscription_id
    stripe_customer_id := sCustId.orElse fun _ => r.stripe_customer_id
    current_period_end := now + periodDays tier * msPerDay
    updated_at := now }

/-- `SubscriptionService.updateSubscription`: update the row with the
given id (`.eq('id', ...)` then `.select().single()`, which errors with
PGRST116 unless exactly one row matched). -/
def updateSubscription (store : List Subscription) (subscriptionId : Nat)
    (tier : PlanTier) (sSubId sCustId : Option String) (now : Int) :
    Except String (List Subscription) :=
  if store.countP (fun r => decide (r.id = subscriptionId)) = 1 then
    .ok (store.map fun r =>
      if r.id = subscriptionId then subUpdateRow tier sSubId sCustId now r else r)
  else .error errPGRST

/-- Row inserted by the insert path of
`SubscriptionService.createSubscription`; `created_at`/`updated_at`
default to now in the store. -/
def newSubRow (userId : String) (tier : PlanTier)
    (sSubId sCustId : Option String) (now : Int) (freshId : Nat) :
    Subscription :=
  { id := freshId
    user_id := userId
    plan_type := tier
    status := .active
    stripe_subscription_id := sSubId
    stripe_customer_id := sCustId
    current_period_start := now
    current_period_end := now + periodDays tier * msPerDay
    created_at := now
    updated_at := now }

/-- Patch applied by the renew-in-place path of
`SubscriptionService.createSubscription` (existing record present but
not active): like `subUpdateRow` but also resetting
`current_period_start` to now. -/
def renewRow (tier : PlanTier) (sSubId sCustId : Option String)
    (now : Int) (r : Subscription) : Subscription :=
  { subUpdateRow tier sSubId sCustId now r with current_period_start := now }

/-- `SubscriptionService.createSubscription` (the spec's `createOrRenew`):
look up the owner's current record; if it exists and is active, delegate
to `updateSubscription`; if it exists but is not active, renew it in
place; otherwise insert a fresh row. -/
def createSubscription (store : List Subscription) (userId : String)
    (tier : PlanTier) (sSubId sCustId : Option String) (now : Int)
    (freshId : Nat) : Except String (List Subscription) :=
  match getUserSubscription userId store with
  | some ex =>
    if ex.status = .active then
      updateSubscription store ex.id tier sSubId sCustId now
    else
      if store.countP (fun r => decide (r.id = ex.id)) = 1 then
        .ok (store.map fun r =>
          if r.id = ex.id then renewRow tier sSubId sCustId now r else r)
      else .error errPGRST
  | none => .ok (store ++ [newSubRow userId tier sSubId sCustId now freshId])

/-- The existence probe of `handleSubscriptionUpdate` in the notification
handler: `supabase.from('subscriptions').single()` — no column selection,
no owner filter, no ordering.  Under PostgREST single-object semantics
this yields the row iff the whole table holds exactly one row; the
PGRST116 error raised for zero or several rows is tolerated by the
caller (`fetchError.code !== 'PGRST116'`), leaving `data` null. -/
def singleRowWholeTable (store : List Subscription) : Option Subscription :=
  match store with
  | [r] => some r
  | _ => none

/-- Row written by `handleSubscriptionUpdate` of the notification
handler (the `subscriptionData` object): tier, status `active`, both
Stripe refs (`stripeSubscriptionId || null`, so the `Option` is written
as-is), `current_period_start` now, `current_period_end` now plus the
tier's period, `updated_at` now; `id`/`user_id`/`created_at` of an
updated row are untouched. -/
def activationPatch (tier : PlanTier) (sCustId : String)
    (sSubId : Option String) (now : Int) (r : Subscription) : Subscription :=
  { r with
    plan_type := tier
    status := .active
    stripe_subscription_id := sSubId
    stripe_customer_id := some sCustId
    current_period_start := now
    current_period_end := now + periodDays tier * msPerDay
    updated_at := now }

/-- `handleSubscriptionUpdate` in the notification handler
(src/unnamed/part_000): computes the period from the tier, probes for an
existing row with the unfiltered whole-table `single()`, then either
updates the rows matching `user_id` (the `.select().single()` after the
update errors with PGRST116 unless exactly one row matched, aborting the
invocation) or inserts a new row.  `writeFails` injects a store failure
on the write call; the source rethrows it (`throw updateError` /
`throw insertError`). -/
def handleSubscriptionUpdate (store : List Subscription) (userId : String)
    (tier : PlanTier) (sCustId : String) (sSubId : Option String)
    (now : Int) (freshId : Nat) (writeFails : Bool) :
    Except String (List Subscription) :=
  match singleRowWholeTable store with
  | some _ =>
    if writeFails then .error errStore
    else if store.countP (fun r => decide (r.user_id = userId)) = 1 then
      .ok (store.map fun r =>
        if r.user_id = userId then activationPatch tier sCustId sSubId now r else r)
    else .error errPGRST
  | none =>
    if writeFails then .error errStore
    else
      .ok (store ++ [newSubRow userId tier sSubId (some sCustId) now freshId])

/-- The `checkout.session.completed` arm of the notification handler's
switch: it awaits `handleSubscriptionUpdate`; a thrown error escapes to
the outer `catch`, which answers 400, while normal completion falls
through to the 200 `{ received: true }` response. -/
def checkoutCompletedStatus (store : List Subscription) (userId : String)
    (tier : PlanTier) (sCustId : String) (sSubId : Option String)
    (now : Int) (freshId : Nat) (writeFails : Bool) :
    List Subscription × Nat :=
  match handleSubscriptionUpdate store userId tier sCustId sSubId now freshId writeFails with
  | .ok store2 => (store2, 200)
  | .error _ => (store, 400)

/-- Patch written by the `invoice.payment_succeeded` arm for every row
matching the Stripe subscription ref: status `active` and both period
bounds overwritten with the externally-reported period, unchecked. -/
def invoicePaidRow (ref : String) (ps pe now : Int) (r : Subscription) :
    Subscription :=
  if r.stripe_subscription_id = some ref then
    { r with
      status := .active
      current_period_start := ps
      current_period_end := pe
      updated_at := now }
  else r

/-- The `invoice.payment_succeeded` arm of the notification handler's
switch: looks up the row matching the Stripe subscription ref with
`.single()` (the error of zero or several matches is destructured away,
so the update only runs when exactly one row matches); the update writes
status `active` and the period reported by the retrieved Stripe
subscription.  `extPeriod` is that externally-reported period; the
source reads it unconditionally, so an absent period
(`new Date(undefined * 1000).toISOString()`) throws a RangeError that
escapes to the outer catch (400, store unchanged).  A failing write is
logged and swallowed (`console.error`), the handler still answering
200.  Returns the store and the HTTP status answered. -/
def handleInvoicePaid (store : List Subscription) (ref : String)
    (extPeriod : Option (Int × Int)) (now : Int) (writeFails : Bool) :
    List Subscription × Nat :=
  if store.countP (fun r => decide (r.stripe_subscription_id = some ref)) = 1 then
    match extPeriod with
    | none => (store, 400)
    | some (ps, pe) =>
      if writeFails then (store, 200)
      else (store.map (invoicePaidRow ref ps pe now), 200)
  else (store, 200)

/-- Patch written by the `invoice.payment_failed` arm for every row
matching the Stripe subscription ref: status `past_due` and `updated_at`
only; the period columns are not in the update object. -/
def invoiceFailedRow (ref : String) (now : Int) (r : Subscription) :
    Subscription :=
  if r.stripe_subscription_id = some ref then
    { r with status := .past_due, updated_at := now }
  else r

/-- The `invoice.payment_failed` arm of the notification handler's
switch: updates every row matching the Stripe subscription ref to
`past_due`.  A failing write is logged and swallowed (`console.error`),
and the handler falls through to the 200 `{ received: true }` response
either way.  Returns the store and the HTTP status answered. -/
def handleInvoiceFailed (store : List Subscription) (ref : String)
    (now : Int) (writeFails : Bool) : List Subscription × Nat :=
  if writeFails then (store, 200)
  else (store.map (invoiceFailedRow ref now), 200)

def uidA : String := "owner-A"
def uidB : String := "owner-B"
def refA : String := "sub-A"
def refB : String := "sub-B"
def custA : String := "cus-A"

/-- Concrete record for the C1 witness: active but already past its
period end at the probed instant. -/
def w1rec : Subscription :=
  ⟨1, uidA, .annual, .active, none, none, 0, 40, 0, 0⟩

/-- Concrete record for the C3 counterexample: a row matching the
Stripe subscription ref of an `invoice.payment_failed` notification. -/
def c3row : Subscription :=
  ⟨1, uidB, .monthly, .active, some refB, some custA, 0, 10, 0, 0⟩

/-- Concrete record for the C4 failing input: the only row of the
table, belonging to owner B. -/
def c4rowB : Subscription :=
  ⟨1, uidB, .monthly, .active, some refB, some custA, 0, 10, 0, 0⟩

/-- Concrete record for the C5 counterexample: matches the ref, is
past_due, and has a stale period. -/
def c5row : Subscription :=
  ⟨1, uidB, .annual, .past_due, some refB, none, 0, 50, 0, 0⟩

/-- Concrete record for the C5 witness. -/
def c5wrow : Subscription :=
  ⟨1, uidB, .annual, .past_due, some refB, none, 0, 50, 0, 0⟩

/-- Concrete record for the C6 witness. -/
def c6row : Subscription :=
  ⟨1, uidB, .monthly, .active, some refB, none, 0, 10, 0, 0⟩

/-- Concrete record for the C7 counterexample, invoice_paid half: a row
with a well-formed period, matching the ref. -/
def c7rowA : Subscription :=
  ⟨1, uidB, .monthly, .active, some refB, none, 0, 10, 0, 0⟩

/-- Concrete record for the C7 counterexample, updateSubscription half:
a well-formed period lying far in the future of the update instant. -/
def c7rowB : Subscription :=
  ⟨2, uidA, .monthly, .active, none, none, 10000000000000, 10000000000001, 0, 0⟩

theorem periodDays_pos (t : PlanTier) : 0 < periodDays t := by
  cases t <;> decide

theorem periodMs_pos (t : PlanTier) : 0 < periodDays t * msPerDay :=
  mul_pos (periodDays_pos t) (by decide)

theorem lt_add_periodMs (t : PlanTier) (now : Int) :
    now < now + periodDays t * msPerDay :=
  lt_add_of_pos_right now (periodMs_pos t)

theorem mem_map_ite {p : Subscription → Prop} [DecidablePred p]
    (f : Subscription → Subscription) (store : List Subscription)
    (r2 : Subscription)
    (h : r2 ∈ store.map fun r => if p r then f r else r) :
    r2 ∈ store ∨ ∃ r, r ∈ store ∧ p r ∧ r2 = f r := by
  rcases List.mem_map.1 h with ⟨r, hr, heq⟩
  by_cases hp : p r
  · exact Or.inr ⟨r, hr, hp, by rw [← heq, if_pos hp]⟩
  · exact Or.inl (by rw [← heq, if_neg hp]; exact hr)

theorem foldl_pickLatest_mem :
    ∀ (l : List Subscription) (acc : Option Subscription) (c : Subscription),
      l.foldl pickLatest acc = some c → c ∈ l ∨ acc = some c := by
  intro l
  induction l with
  | nil => exact fun acc c h => Or.inr h
  | cons r t ih =>
    intro acc c h
    rcases ih (pickLatest acc r) c h with h1 | h2
    · exact Or.inl (List.mem_cons_of_mem r h1)
    · cases acc with
      | none =>
        cases Option.some.inj h2
        exact Or.inl (List.mem_cons_self r t)
      | some a =>
        by_cases hlt : r.created_at > a.created_at
        · have : some r = some c := by
            have hpl : pickLatest (some a) r = some r := if_pos hlt
            rw [← hpl]; exact h2
          cases Option.some.inj this
          exact Or.inl (List.mem_cons_self r t)
        · have : some a = some c := by
            have hpl : pickLatest (some a) r = some a := if_neg hlt
            rw [← hpl]; exact h2
          exact Or.inr this

theorem getUserSubscription_mem (userId : String) (store : List Subscription)
    (c : Subscription) (h : getUserSubscription userId store = some c) :
    c ∈ store ∧ c.user_id = userId := by
  unfold getUserSubscription at h
  rcases foldl_pickLatest_mem _ none c h with h1 | h2
  · rcases List.mem_filter.1 h1 with ⟨hm, hp⟩
    exact ⟨hm, of_decide_eq_true hp⟩
  · exact absurd h2 (by simp)

theorem foldl_pickLatest_map (f : Subscription → Subscription)
    (hfc : ∀ r, (f r).created_at = r.created_at) :
    ∀ (l : List Subscription) (acc : Option Subscription),
      (l.map f).foldl pickLatest (acc.map f) = (l.foldl pickLatest acc).map f := by
  intro l
  induction l with
  | nil => intro acc; rfl
  | cons r t ih =>
    intro acc
    have hstep : pickLatest (acc.map f) (f r) = (pickLatest acc r).map f := by
      cases acc with
      | none => rfl
      | some a =>
        show (if (f r).created_at > (f a).created_at then some (f r) else some (f a))
            = (if r.created_at > a.created_at then some r else some a).map f
        rw [hfc r, hfc a]
        by_cases hlt : r.created_at > a.created_at
        · rw [if_pos hlt, if_pos hlt]; rfl
        · rw [if_neg hlt, if_neg hlt]; rfl
    calc ((r :: t).map f).foldl pickLatest (acc.map f)
        = (t.map f).foldl pickLatest (pickLatest (acc.map f) (f r)) := rfl
      _ = (t.map f).foldl pickLatest ((pickLatest acc r).map f) := by rw [hstep]
      _ = (t.foldl pickLatest (pickLatest acc r)).map f := ih _
      _ = ((r :: t).foldl pickLatest acc).map f := rfl

theorem getUserSubscription_map (userId : String) (store : List Subscription)
    (f : Subscription → Subscription)
    (hfu : ∀ r, (f r).user_id = r.user_id)
    (hfc : ∀ r, (f r).created_at = r.created_at) :
    getUserSubscription userId (store.map f)
      = (getUserSubscription userId store).map f := by
  unfold getUserSubscription
  have hfilter : (store.map f).filter (fun r => decide (r.user_id = userId))
      = (store.filter (fun r => decide (r.user_id = userId))).map f := by
    rw [List.filter_map]
    congr 1
    apply List.filter_congr
    intro r _
    simp only [Function.comp_apply, hfu r]
  rw [hfilter]
  exact foldl_pickLatest_map f hfc _ none

theorem getUserSubscription_append (userId : String) (store : List Subscription)
    (x : Subscription) (hx : x.user_id = userId)
    (hlt : ∀ r ∈ store, r.created_at < x.created_at) :
    getUserSubscription userId (store ++ [x]) = some x := by
  unfold getUserSubscription
  rw [List.filter_append, List.foldl_append]
  have hfx : List.filter (fun r => decide (r.user_id = userId)) [x] = [x] := by
    simp [hx]
  rw [hfx]
  show pickLatest ((store.filter fun r => decide (r.user_id = userId)).foldl pickLatest none) x = some x
  cases hacc : (store.filter fun r => decide (r.user_id = userId)).foldl pickLatest none with
  | none => rfl
  | some c =>
    have hc : c ∈ store := by
      rcases foldl_pickLatest_mem _ none c hacc with h1 | h2
      · exact (List.mem_filter.1 h1).1
      · exact absurd h2 (by simp)
    show (if x.created_at > c.created_at then some x else some c) = some x
    rw [if_pos (hlt c hc)]

theorem countP_id_eq_one :
    ∀ (store : List Subscription),
      store.Pairwise (fun a b => a.id ≠ b.id) → ∀ c ∈ store,
      store.countP (fun r => decide (r.id = c.id)) = 1 := by
  intro store
  induction store with
  | nil => intro _ c hc; cases hc
  | cons a t ih =>
    intro hp c hc
    have hpa := (List.pairwise_cons.1 hp).1
    have hpt := (List.pairwise_cons.1 hp).2
    rcases List.mem_cons.1 hc with rfl | hct
    · have h0 : t.countP (fun r => decide (r.id = c.id)) = 0 := by
        rw [List.countP_eq_zero]
        intro r hr
        simp only [decide_eq_true_eq]
        exact fun he => hpa r hr he.symm
      rw [List.countP_cons]
      simp [h0]
    · have hne : ¬ (a.id = c.id) := hpa c hct
      have h1 := ih hpt c hct
      rw [List.countP_cons]
      simp [h1, hne]

theorem updateSubscription_ok (store : List Subscription) (subId : Nat)
    (tier : PlanTier) (sSubId sCustId : Option String) (now : Int)
    (hcnt : store.countP (fun r => decide (r.id = subId)) = 1) :
    updateSubscription store subId tier sSubId sCustId now
      = .ok (store.map fun r =>
          if r.id = subId then subUpdateRow tier sSubId sCustId now r else r) := by
  unfold updateSubscription
  rw [if_pos hcnt]

/-- C1: for every present subscription record and every time `now`, the
entitlement evaluation (`fallbackAccessCheck`) grants access exactly
when the status is active and the period end is strictly later than
`now`; `daysRemaining` is `max 0 (ceil ((period_end - now) / 1 day))`;
`features` is the feature set of the record's plan tier; and access is
denied whenever the status is not active (regardless of period) and
whenever `now ≥ period_end` (regardless of status). -/
theorem C1_access_evaluation (s : Subscription) (now : Int) :
    ((fallbackAccessCheck (some s) now).hasAccess = true ↔
      (s.status = .active ∧ now < s.current_period_end))
    ∧ (fallbackAccessCheck (some s) now).daysRemaining
        = max 0 (ceilDiv (s.current_period_end - now) msPerDay)
    ∧ (fallbackAccessCheck (some s) now).features = getPlanFeatures s.plan_type
    ∧ (s.status ≠ .active → (fallbackAccessCheck (some s) now).hasAccess = false)
    ∧ (s.current_period_end ≤ now →
        (fallbackAccessCheck (some s) now).hasAccess = false) := by
  refine ⟨?_, rfl, rfl, ?_, ?_⟩
  · show (decide (s.status = .active) && decide (now < s.current_period_end)) = true ↔ _
    simp
  · intro h
    show (decide (s.status = .active) && decide (now < s.current_period_end)) = false
    simp [h]
  · intro h
    show (decide (s.status = .active) && decide (now < s.current_period_end)) = false
    simp [not_lt.2 h]

/-- C1 witness: a record that is active but whose period end (40) is not
later than the probed time (50) is denied access. -/
theorem C1_access_evaluation_witness :
    (fallbackAccessCheck (some w1rec) 50).hasAccess = false :=
  (C1_access_evaluation w1rec 50).2.2.2.2 (by decide)

/-- C2: `checkSubscriptionAccess` is a total function of the store-read
outcome (so it never raises), and both on a read failure and on an
absent record it returns the fail-open default: access granted, trial
feature set, 30 days remaining, no record attached. -/
theorem C2_fail_open (now : Int) :
    (∀ e : String,
      checkSubscriptionAccess (.error e) now =
        { hasAccess := true, subscription := none,
          features := getTrialFeatures, daysRemaining := 30 })
    ∧ checkSubscriptionAccess (.ok none) now =
        { hasAccess := true, subscription := none,
          features := getTrialFeatures, daysRemaining := 30 } :=
  ⟨fun _ => rfl, rfl⟩

/-- C9: the feature table is total over the tier enumeration and maps
trial to `{100, 1, false, false, false, false}` and each paid tier to
unlimited customers and branches (encoded `-1` in the source), analytics
and priority support on, with branding and API access exactly for the
non-monthly paid tiers. -/
theorem C9_feature_table :
    getPlanFeatures .trial =
      { maxCustomers := 100, maxBranches := 1, advancedAnalytics := false,
        prioritySupport := false, customBranding := false, apiAccess := false }
    ∧ getPlanFeatures .monthly =
      { maxCustomers := -1, maxBranches := -1, advancedAnalytics := true,
        prioritySupport := true, customBranding := false, apiAccess := false }
    ∧ getPlanFeatures .semiannual =
      { maxCustomers := -1, maxBranches := -1, advancedAnalytics := true,
        prioritySupport := true, customBranding := true, apiAccess := true }
    ∧ getPlanFeatures .annual =
      { maxCustomers := -1, maxBranches := -1, advancedAnalytics := true,
        prioritySupport := true, customBranding := true, apiAccess := true } := by
  decide

/-- C10: `getPaymentHistory` returns at most one entry for any read
outcome, the empty list on a read failure or an absent record, and
otherwise a single entry synthesized from the current subscription
record: amount from the fixed cents table (monthly 299, semiannual 999,
annual 1999, anything else 0) and textual status `paid` exactly when the
record's status is active, `failed` otherwise. -/
theorem C10_payment_history :
    (∀ e : String, getPaymentHistory (.error e) = [])
    ∧ getPaymentHistory (.ok none) = []
    ∧ (∀ readResult, (getPaymentHistory readResult).length ≤ 1)
    ∧ (∀ s : Subscription,
        getPaymentHistory (.ok (some s)) =
          [{ id := s.id
             amount := getPlanAmount s.plan_type
             payStatus := if s.status = .active then paidStr else failedStr
             created := s.created_at
             period_start := s.current_period_start
             period_end := s.current_period_end
             plan_type := s.plan_type }])
    ∧ getPlanAmount .monthly = 299 ∧ getPlanAmount .semiannual = 999
    ∧ getPlanAmount .annual = 1999 ∧ getPlanAmount .trial = 0 := by
  refine ⟨fun _ => rfl, rfl, ?_, fun _ => rfl, rfl, rfl, rfl, rfl⟩
  intro readResult
  rcases readResult with e | o
  · simp [getPaymentHistory]
  · rcases o with _ | s <;> simp [getPaymentHistory]

/-- C3 counterexample: an `invoice.payment_failed` notification whose
reconciliation write fails (`writeFails = true`) is still acknowledged
with HTTP 200 and the store is left unchanged — the write failure is
swallowed (the source only `console.error`s it), contradicting the claim
that a failed write always aborts the invocation with a 400-class
rejection and is never acknowledged with 200. -/
theorem C3_write_failure_counterexample :
    handleInvoiceFailed [c3row] refB 5 true = ([c3row], 200) := rfl

/-- C3 amended: only the activation path propagates write failures —
`handleSubscriptionUpdate` rethrows them, so the
`checkout.session.completed` arm answers 400 and leaves the store
unchanged; the `invoice.payment_failed` arm logs and swallows a write
failure and still answers 200 with the store unchanged. -/
theorem C3_write_failure_amended :
    (∀ (store : List Subscription) (userId : String) (tier : PlanTier)
        (sCustId : String) (sSubId : Option String) (now : Int) (freshId : Nat),
      checkoutCompletedStatus store userId tier sCustId sSubId now freshId true
        = (store, 400))
    ∧ (∀ (store : List Subscription) (ref : String) (now : Int),
      handleInvoiceFailed store ref now true = (store, 200)) := by
  constructor
  · intro store userId tier sCustId sSubId now freshId
    unfold checkoutCompletedStatus handleSubscriptionUpdate
    cases singleRowWholeTable store <;> rfl
  · intro store ref now
    rfl

/-- C4 failing input, evaluated: the store holds exactly one row and it
belongs to owner B; a `subscription_activated` event for owner A (who
has no record, second conjunct) must, per the claim and the spec, insert
a new record for A.  Instead the unfiltered whole-table `single()`
existence probe sees B's row, the handler takes the update path keyed on
A's `user_id`, the update matches nothing, and the invocation aborts
with the PGRST116 error — nothing is inserted for A. -/
theorem C4_current_lookup_bug :
    handleSubscriptionUpdate [c4rowB] uidA .monthly custA (some refA) 100 2 false
      = .error errPGRST
    ∧ getUserSubscription uidA [c4rowB] = none :=
  ⟨rfl, rfl⟩

/-- C5 counterexample: an `invoice_paid` event whose ref matches the one
existing record but that carries no externally-reported period.  The
claim says the engine then sets the status to active and extends the
period to `now + duration(tier)`; the code has no such fallback — the
period fields of the retrieved subscription are read unconditionally, so
the invocation aborts (400) with the store unchanged, the record still
`past_due` with its stale period. -/
theorem C5_no_fallback_counterexample :
    handleInvoicePaid [c5row] refB none 100 false = ([c5row], 400)
    ∧ c5row.status ≠ .active ∧ c5row.current_period_end = 50 :=
  ⟨rfl, by decide, rfl⟩

/-- C5 amended: when the externally-reported period is supplied (the
processor always supplies one — the handler reads it off the retrieved
subscription unconditionally), the engine sets the matching record's
status to active and overwrites both period bounds with it; when it is
absent the invocation aborts with a 400-class error and the store is
unchanged — there is no fallback extension by `duration(tier)` and no
`now + duration(tier)` lower bound on the resulting period end. -/
theorem C5_refresh_amended :
    (∀ (store : List Subscription) (ref : String) (ps pe now : Int),
      store.countP (fun r => decide (r.stripe_subscription_id = some ref)) = 1 →
      handleInvoicePaid store ref (some (ps, pe)) now false
        = (store.map (invoicePaidRow ref ps pe now), 200))
    ∧ (∀ (r : Subscription) (ref : String) (ps pe now : Int),
      r.stripe_subscription_id = some ref →
      (invoicePaidRow ref ps pe now r).status = .active
      ∧ (invoicePaidRow ref ps pe now r).current_period_start = ps
      ∧ (invoicePaidRow ref ps pe now r).current_period_end = pe)
    ∧ (∀ (store : List Subscription) (ref : String) (now : Int),
      store.countP (fun r => decide (r.stripe_subscription_id = some ref)) = 1 →
      handleInvoicePaid store ref none now false = (store, 400)) := by
  refine ⟨?_, ?_, ?_⟩
  · intro store ref ps pe now hcnt
    unfold handleInvoicePaid
    rw [if_pos hcnt]
    rfl
  · intro r ref ps pe now href
    unfold invoicePaidRow
    rw [if_pos href]
    exact ⟨rfl, rfl, rfl⟩
  · intro store ref now hcnt
    unfold handleInvoicePaid
    rw [if_pos hcnt]

/-- C5 witness: one matching past_due record, external period supplied;
the record is refreshed to it and the event acknowledged with 200. -/
theorem C5_refresh_amended_witness :
    handleInvoicePaid [c5wrow] refB (some (1000, 2000)) 30 false
      = ([invoicePaidRow refB 1000 2000 30 c5wrow], 200) :=
  C5_refresh_amended.1 [c5wrow] refB 1000 2000 30 (by decide)

/-- C6: an `invoice_failed` event for a record matching the ref sets its
status to past_due while leaving both period bounds unchanged, and
applying the event twice yields the same statuses as applying it once
(idempotent on status). -/
theorem C6_invoice_failed (store : List Subscription) (ref : String)
    (now now2 : Int) (r : Subscription) (hmem : r ∈ store)
    (href : r.stripe_subscription_id = some ref) :
    invoiceFailedRow ref now r ∈ (handleInvoiceFailed store ref now false).1
    ∧ (invoiceFailedRow ref now r).status = .past_due
    ∧ (invoiceFailedRow ref now r).current_period_start = r.current_period_start
    ∧ (invoiceFailedRow ref now r).current_period_end = r.current_period_end
    ∧ (handleInvoiceFailed (handleInvoiceFailed store ref now false).1 ref now2
          false).1.map (fun x => x.status)
      = (handleInvoiceFailed store ref now false).1.map (fun x => x.status) := by
  refine ⟨?_, ?_, ?_, ?_, ?_⟩
  · show invoiceFailedRow ref now r ∈ store.map (invoiceFailedRow ref now)
    exact List.mem_map_of_mem (invoiceFailedRow ref now) hmem
  · unfold invoiceFailedRow
    rw [if_pos href]
  · unfold invoiceFailedRow
    rw [if_pos href]
  · unfold invoiceFailedRow
    rw [if_pos href]
  · show ((store.map (invoiceFailedRow ref now)).map (invoiceFailedRow ref now2)).map
        (fun x => x.status)
      = (store.map (invoiceFailedRow ref now)).map (fun x => x.status)
    simp only [List.map_map]
    apply List.map_congr_left
    intro a _
    by_cases ha : a.stripe_subscription_id = some ref
    · simp [invoiceFailedRow, ha]
    · simp [invoiceFailedRow, ha]

/-- C6 witness: a concrete matching record flips to past_due with its
period untouched. -/
theorem C6_invoice_failed_witness :
    (invoiceFailedRow refB 5 c6row).status = .past_due
    ∧ (invoiceFailedRow refB 5 c6row).current_period_end
        = c6row.current_period_end :=
  ⟨(C6_invoice_failed [c6row] refB 5 9 c6row (by decide) (by decide)).2.1,
   (C6_invoice_failed [c6row] refB 5 9 c6row (by decide) (by decide)).2.2.2.1⟩

theorem handleSubscriptionUpdate_inv (store : List Subscription)
    (userId : String) (tier : PlanTier) (sCustId : String)
    (sSubId : Option String) (now : Int) (freshId : Nat)
    (st2 : List Subscription)
    (h : handleSubscriptionUpdate store userId tier sCustId sSubId now freshId
        false = .ok st2) :
    ∀ r2 ∈ st2, r2 ∈ store ∨ r2.current_period_start < r2.current_period_end := by
  unfold handleSubscriptionUpdate at h
  cases hsc : singleRowWholeTable store with
  | some x =>
    rw [hsc] at h
    by_cases hcnt : store.countP (fun r => decide (r.user_id = userId)) = 1
    · rw [if_neg (by simp), if_pos hcnt] at h
      injection h with h2
      subst h2
      intro r2 hr2
      rcases mem_map_ite (p := fun r => r.user_id = userId)
          (activationPatch tier sCustId sSubId now) store r2 hr2 with
        hmem | ⟨r, _, _, rfl⟩
      · exact Or.inl hmem
      · exact Or.inr (lt_add_periodMs tier now)
    · rw [if_neg (by simp), if_neg hcnt] at h
      exact Except.noConfusion h
  | none =>
    rw [hsc, if_neg (by simp)] at h
    injection h with h2
    subst h2
    intro r2 hr2
    rcases List.mem_append.1 hr2 with h1 | h2
    · exact Or.inl h1
    · rw [List.mem_singleton.1 h2]
      exact Or.inr (lt_add_periodMs tier now)

theorem handleInvoicePaid_inv (store : List Subscription) (ref : String)
    (ps pe now : Int) (hpspe : ps < pe) :
    ∀ r2 ∈ (handleInvoicePaid store ref (some (ps, pe)) now false).1,
      r2 ∈ store ∨ r2.current_period_start < r2.current_period_end := by
  unfold handleInvoicePaid
  by_cases hcnt :
      store.countP (fun r => decide (r.stripe_subscription_id = some ref)) = 1
  · rw [if_pos hcnt]
    intro r2 hr2
    rcases mem_map_ite (p := fun r => r.stripe_subscription_id = some ref)
        (fun r => { r with
          status := .active
          current_period_start := ps
          current_period_end := pe
          updated_at := now }) store r2 hr2 with
      hmem | ⟨r, _, _, rfl⟩
    · exact Or.inl hmem
    · exact Or.inr hpspe
  · rw [if_neg hcnt]
    exact fun r2 hr2 => Or.inl hr2

theorem updateSubscription_inv (store : List Subscription) (subId : Nat)
    (tier : PlanTier) (sSubId sCustId : Option String) (now : Int)
    (st2 : List Subscription)
    (hstart : ∀ r ∈ store, r.id = subId →
      r.current_period_start < now + periodDays tier * msPerDay)
    (h : updateSubscription store subId tier sSubId sCustId now = .ok st2) :
    ∀ r2 ∈ st2, r2 ∈ store ∨ r2.current_period_start < r2.current_period_end := by
  unfold updateSubscription at h
  by_cases hcnt : store.countP (fun r => decide (r.id = subId)) = 1
  · rw [if_pos hcnt] at h
    injection h with h2
    subst h2
    intro r2 hr2
    rcases mem_map_ite (p := fun r => r.id = subId)
        (subUpdateRow tier sSubId sCustId now) store r2 hr2 with
      hmem | ⟨r, hrmem, hpr, rfl⟩
    · exact Or.inl hmem
    · exact Or.inr (hstart r hrmem hpr)
  · rw [if_neg hcnt] at h
    exact Except.noConfusion h

theorem createSubscription_eq_some (store : List Subscription)
    (userId : String) (tier : PlanTier) (sSubId sCustId : Option String)
    (now : Int) (freshId : Nat) (ex : Subscription)
    (hcur : getUserSubscription userId store = some ex) :
    createSubscription store userId tier sSubId sCustId now freshId
      = if ex.status = .active then
          updateSubscription store ex.id tier sSubId sCustId now
        else if store.countP (fun r => decide (r.id = ex.id)) = 1 then
          .ok (store.map fun r =>
            if r.id = ex.id then renewRow tier sSubId sCustId now r else r)
        else .error errPGRST := by
  unfold createSubscription
  rw [hcur]

theorem createSubscription_eq_none (store : List Subscription)
    (userId : String) (tier : PlanTier) (sSubId sCustId : Option String)
    (now : Int) (freshId : Nat)
    (hcur : getUserSubscription userId store = none) :
    createSubscription store userId tier sSubId sCustId now freshId
      = .ok (store ++ [newSubRow userId tier sSubId sCustId now freshId]) := by
  unfold createSubscription
  rw [hcur]

theorem createSubscription_inv (store : List Subscription) (userId : String)
    (tier : PlanTier) (sSubId sCustId : Option String) (now : Int)
    (freshId : Nat) (st2 : List Subscription)
    (hstart : ∀ r ∈ store, r.current_period_start ≤ now)
    (h : createSubscription store userId tier sSubId sCustId now freshId
        = .ok st2) :
    ∀ r2 ∈ st2, r2 ∈ store ∨ r2.current_period_start < r2.current_period_end := by
  cases hcur : getUserSubscription userId store with
  | none =>
    rw [createSubscription_eq_none store userId tier sSubId sCustId now freshId
      hcur] at h
    injection h with h2
    subst h2
    intro r2 hr2
    rcases List.mem_append.1 hr2 with h1 | h2
    · exact Or.inl h1
    · rw [List.mem_singleton.1 h2]
      exact Or.inr (lt_add_periodMs tier now)
  | some ex =>
    rw [createSubscription_eq_some store userId tier sSubId sCustId now freshId
      ex hcur] at h
    by_cases hact : ex.status = .active
    · rw [if_pos hact] at h
      exact updateSubscription_inv store ex.id tier sSubId sCustId now st2
        (fun r hr _ => lt_of_le_of_lt (hstart r hr) (lt_add_periodMs tier now)) h
    · rw [if_neg hact] at h
      by_cases hcnt : store.countP (fun r => decide (r.id = ex.id)) = 1
      · rw [if_pos hcnt] at h
        injection h with h2
        subst h2
        intro r2 hr2
        rcases mem_map_ite (p := fun r => r.id = ex.id)
            (renewRow tier sSubId sCustId now) store r2 hr2 with
          hmem | ⟨r, _, _, rfl⟩
        · exact Or.inl hmem
        · exact Or.inr (lt_add_periodMs tier now)
      · rw [if_neg hcnt] at h
        exact Except.noConfusion h

/-- C7 counterexample: both halves exhibit a write that breaks the
`period_end > period_start` invariant on a record that satisfied it
beforehand.  First, the `invoice_paid` refresh writes an
externally-reported period `(100, 50)` unchecked, producing a row with
`period_end < period_start`.  Second, `updateSubscription` rewrites
`period_end` from `now` while leaving a far-future `period_start`
untouched, again producing a violating row. -/
theorem C7_invariant_counterexample :
    c7rowA.current_period_start < c7rowA.current_period_end
    ∧ (handleInvoicePaid [c7rowA] refB (some (100, 50)) 7 false).1
        = [invoicePaidRow refB 100 50 7 c7rowA]
    ∧ ¬ (invoicePaidRow refB 100 50 7 c7rowA).current_period_start
        < (invoicePaidRow refB 100 50 7 c7rowA).current_period_end
    ∧ c7rowB.current_period_start < c7rowB.current_period_end
    ∧ updateSubscription [c7rowB] 2 .monthly none none 0
        = .ok [subUpdateRow .monthly none none 0 c7rowB]
    ∧ ¬ (subUpdateRow .monthly none none 0 c7rowB).current_period_start
        < (subUpdateRow .monthly none none 0 c7rowB).current_period_end :=
  ⟨by decide, rfl, by decide, by decide, rfl, by decide⟩

/-- C7 amended: the write paths preserve `period_end > period_start`
with two provisos the code does not enforce.  Every row produced by the
activation upsert is either an untouched input row or satisfies the
invariant outright (it gets `period_start = now`,
`period_end = now + duration(tier)`), and likewise for the insert and
renew-in-place paths of `createOrRenew`; the `invoice_paid` refresh
preserves it only provided the externally-reported period itself
satisfies `end > start` (it is written unchecked); and
`updateSubscription` (also reached from `createOrRenew` on an active
record) preserves it only provided the target row's `period_start` lies
below `now + duration(tier)`, since it rewrites `period_end` but leaves
`period_start` unchanged — for `createOrRenew` it suffices that no
stored row starts in the future. -/
theorem C7_invariant_amended :
    (∀ (store : List Subscription) (userId : String) (tier : PlanTier)
        (sCustId : String) (sSubId : Option String) (now : Int)
        (freshId : Nat) (st2 : List Subscription),
      handleSubscriptionUpdate store userId tier sCustId sSubId now freshId
          false = .ok st2 →
      ∀ r2 ∈ st2, r2 ∈ store ∨ r2.current_period_start < r2.current_period_end)
    ∧ (∀ (store : List Subscription) (ref : String) (ps pe now : Int),
      ps < pe →
      ∀ r2 ∈ (handleInvoicePaid store ref (some (ps, pe)) now false).1,
        r2 ∈ store ∨ r2.current_period_start < r2.current_period_end)
    ∧ (∀ (store : List Subscription) (subId : Nat) (tier : PlanTier)
        (sSubId sCustId : Option String) (now : Int) (st2 : List Subscription),
      (∀ r ∈ store, r.id = subId →
        r.current_period_start < now + periodDays tier * msPerDay) →
      updateSubscription store subId tier sSubId sCustId now = .ok st2 →
      ∀ r2 ∈ st2, r2 ∈ store ∨ r2.current_period_start < r2.current_period_end)
    ∧ (∀ (store : List Subscription) (userId : String) (tier : PlanTier)
        (sSubId sCustId : Option String) (now : Int) (freshId : Nat)
        (st2 : List Subscription),
      (∀ r ∈ store, r.current_period_start ≤ now) →
      createSubscription store userId tier sSubId sCustId now freshId = .ok st2 →
      ∀ r2 ∈ st2, r2 ∈ store ∨ r2.current_period_start < r2.current_period_end) :=
  ⟨fun store userId tier sCustId sSubId now freshId st2 h =>
      handleSubscriptionUpdate_inv store userId tier sCustId sSubId now freshId st2 h,
   fun store ref ps pe now hpspe =>
      handleInvoicePaid_inv store ref ps pe now hpspe,
   fun store subId tier sSubId sCustId now st2 hstart h =>
      updateSubscription_inv store subId tier sSubId sCustId now st2 hstart h,
   fun store userId tier sSubId sCustId now freshId st2 hstart h =>
      createSubscription_inv store userId tier sSubId sCustId now freshId st2 hstart h⟩

/-- C7 witness: the insert path of `createOrRenew` on an empty store
produces a row satisfying the invariant. -/
theorem C7_invariant_amended_witness :
    newSubRow uidA .monthly none none 0 1 ∈ ([] : List Subscription)
    ∨ (newSubRow uidA .monthly none none 0 1).current_period_start
        < (newSubRow uidA .monthly none none 0 1).current_period_end :=
  C7_invariant_amended.2.2.2 [] uidA .monthly none none 0 1
    [newSubRow uidA .monthly none none 0 1] (by simp) rfl
    (newSubRow uidA .monthly none none 0 1) (by simp)

theorem access_of_active_future (s : Subscription) (now : Int)
    (hst : s.status = .active) (hfut : now < s.current_period_end) :
    (checkSubscriptionAccess (.ok (some s)) now).hasAccess = true
    ∧ (checkSubscriptionAccess (.ok (some s)) now).features
        = getPlanFeatures s.plan_type := by
  constructor
  · show (decide (s.status = .active) && decide (now < s.current_period_end)) = true
    simp [hst, hfut]
  · rfl

/-- C8: `createOrRenew` (`createSubscription`) followed immediately by
`checkAccess` (`checkSubscriptionAccess` over `getUserSubscription`) for
the same owner grants access and reports the feature set of the tier
just written.  The check runs at the same instant `now`, so the computed
`period_end = now + duration(tier)` is automatically in the future, as
the claim assumes.  Side conditions of the store model: every stored row
was created strictly before `now`, and store-assigned row ids are
pairwise distinct. -/
theorem C8_round_trip (store : List Subscription) (userId : String)
    (tier : PlanTier) (sSubId sCustId : Option String) (now : Int)
    (freshId : Nat)
    (hpast : ∀ r ∈ store, r.created_at < now)
    (hids : store.Pairwise fun a b => a.id ≠ b.id) :
    (createSubscription store userId tier sSubId sCustId now freshId).isOk = true
    ∧ ∀ st2,
      createSubscription store userId tier sSubId sCustId now freshId = .ok st2 →
      (checkSubscriptionAccess (.ok (getUserSubscription userId st2))
          now).hasAccess = true
      ∧ (checkSubscriptionAccess (.ok (getUserSubscription userId st2))
          now).features = getPlanFeatures tier := by
  cases hcur : getUserSubscription userId store with
  | none =>
    have heq := createSubscription_eq_none store userId tier sSubId sCustId now
      freshId hcur
    refine ⟨by rw [heq]; rfl, ?_⟩
    intro st2 h
    rw [heq] at h
    injection h with h2
    subst h2
    have hget : getUserSubscription userId
        (store ++ [newSubRow userId tier sSubId sCustId now freshId])
        = some (newSubRow userId tier sSubId sCustId now freshId) :=
      getUserSubscription_append userId store _ rfl (fun r hr => hpast r hr)
    rw [hget]
    exact access_of_active_future _ now rfl (lt_add_periodMs tier now)
  | some ex =>
    obtain ⟨hexmem, hexuid⟩ := getUserSubscription_mem userId store ex hcur
    have hcnt := countP_id_eq_one store hids ex hexmem
    have heqs := createSubscription_eq_some store userId tier sSubId sCustId now
      freshId ex hcur
    by_cases hact : ex.status = .active
    · have heq : createSubscription store userId tier sSubId sCustId now freshId
          = .ok (store.map fun r =>
              if r.id = ex.id then subUpdateRow tier sSubId sCustId now r else r) := by
        rw [heqs, if_pos hact]
        exact updateSubscription_ok store ex.id tier sSubId sCustId now hcnt
      refine ⟨by rw [heq]; rfl, ?_⟩
      intro st2 h
      rw [heq] at h
      injection h with h2
      subst h2
      have hget : getUserSubscription userId
          (store.map fun r =>
            if r.id = ex.id then subUpdateRow tier sSubId sCustId now r else r)
          = some (subUpdateRow tier sSubId sCustId now ex) := by
        rw [getUserSubscription_map userId store _
          (fun r => by by_cases hid : r.id = ex.id <;> simp [hid, subUpdateRow])
          (fun r => by by_cases hid : r.id = ex.id <;> simp [hid, subUpdateRow]),
          hcur]
        show some (if ex.id = ex.id then subUpdateRow tier sSubId sCustId now ex else ex)
          = some (subUpdateRow tier sSubId sCustId now ex)
        rw [if_pos rfl]
      rw [hget]
      exact access_of_active_future _ now rfl (lt_add_periodMs tier now)
    · have heq : createSubscription store userId tier sSubId sCustId now freshId
          = .ok (store.map fun r =>
              if r.id = ex.id then renewRow tier sSubId sCustId now r else r) := by
        rw [heqs, if_neg hact, if_pos hcnt]
      refine ⟨by rw [heq]; rfl, ?_⟩
      intro st2 h
      rw [heq] at h
      injection h with h2
      subst h2
      have hget : getUserSubscription userId
          (store.map fun r =>
            if r.id = ex.id then renewRow tier sSubId sCustId now r else r)
          = some (renewRow tier sSubId sCustId now ex) := by
        rw [getUserSubscription_map userId store _
          (fun r => by by_cases hid : r.id = ex.id <;> simp [hid, renewRow, subUpdateRow])
          (fun r => by by_cases hid : r.id = ex.id <;> simp [hid, renewRow, subUpdateRow]),
          hcur]
        show some (if ex.id = ex.id then renewRow tier sSubId sCustId now ex else ex)
          = some (renewRow tier sSubId sCustId now ex)
        rw [if_pos rfl]
      rw [hget]
      exact access_of_active_future _ now rfl (lt_add_periodMs tier now)

/-- C8 witness: on the empty store, creating a monthly subscription for
owner A and immediately checking access at the same instant grants
access with the monthly feature set. -/
theorem C8_round_trip_witness :
    (checkSubscriptionAccess
        (.ok (getUserSubscription uidA [newSubRow uidA .monthly none none 0 1]))
        0).hasAccess = true
    ∧ (checkSubscriptionAccess
        (.ok (getUserSubscription uidA [newSubRow uidA .monthly none none 0 1]))
        0).features = getPlanFeatures .monthly :=
  (C8_round_trip [] uidA .monthly none none 0 1 (by simp) (by simp)).2
    [newSubRow uidA .monthly none none 0 1] rfl

end Billing
